import Mathlib

/-!
Shallow embedding of `auto_offset_z.py` (AutoOffsetZCalibration, Klipper
extra module).  Python floats are modelled as exact rationals (`ℚ`);
`math.floor` / `math.ceil` become `Int.floor` / `Int.ceil`.  The external
collaborators (toolhead, probe sessions, gcode dispatch) are modelled as an
event trace: the command emits the same sequence of external commands the
Python code issues, and consumes probe measurements as inputs.
-/

/-- Python's builtin `abs` on a rational (kernel-computable; equal to
Mathlib's `|·|` by `ratAbs_eq_abs`). -/
def ratAbs (q : ℚ) : ℚ := if q < 0 then -q else q

/-- Python's `math.floor` on a rational (kernel-computable; equal to
Mathlib's `⌊·⌋` by `ratFloor_eq_floor`). -/
def ratFloor (q : ℚ) : ℤ := q.num / (q.den : ℤ)

/-- Python's `math.ceil` on a rational (kernel-computable; equal to
Mathlib's `⌈·⌉` by `ratCeil_eq_ceil`). -/
def ratCeil (q : ℚ) : ℤ := -ratFloor (-q)

/-- Embedding of `AutoOffsetZCalibration.rounding` (lines 76-80):
`expoN = n * 10 ** decimals`; if `abs(expoN) - abs(math.floor(expoN)) < 0.5`
return `math.floor(expoN) / 10 ** decimals` else
`math.ceil(expoN) / 10 ** decimals`. -/
def rounding (n : ℚ) (decimals : ℕ) : ℚ :=
  if ratAbs (n * 10 ^ decimals) - ratAbs (ratFloor (n * 10 ^ decimals) : ℚ) < 1/2 then
    (ratFloor (n * 10 ^ decimals) : ℚ) / 10 ^ decimals
  else
    (ratCeil (n * 10 ^ decimals) : ℚ) / 10 ^ decimals

/-- Which alignment subsystem `__init__` resolved (`self.adjusttype`). -/
inductive AdjustType where
  | qgl
  | ztilt
  | ignore
deriving DecidableEq, Repr

/-- The fields stored on `self` by `AutoOffsetZCalibration.__init__`
(lines 17-34 and 42-43 / 54-55 and 67-71). -/
structure Config where
  center_x_pos : ℚ
  center_y_pos : ℚ
  endstop_x_pos : ℚ
  endstop_y_pos : ℚ
  z_hop : ℚ
  z_hop_speed : ℚ
  max_z : ℚ
  ignore_alignment : Bool
  ignore_endstopoffset : Bool
  speed : ℚ
  offsetadjust : ℚ
  internalendstopoffset : ℚ
  offset_min : ℚ
  offset_max : ℚ
  endstop_min : ℚ
  endstop_max : ℚ
  x_offset : ℚ
  y_offset : ℚ
  adjusttype : AdjustType
deriving DecidableEq, Repr

/-- The raw configuration file contents consulted by `__init__`: which
sections exist, the sensor offsets of each candidate section, whether the
z endstop pin string contains the substring `virtual_endstop`, and the
numeric options (with their parsed defaults already applied). -/
structure RawConfig where
  has_bltouch : Bool
  bltouch_x_offset : ℚ
  bltouch_y_offset : ℚ
  has_probe : Bool
  probe_x_offset : ℚ
  probe_y_offset : ℚ
  endstop_pin_has_virtual_endstop : Bool
  has_quad_gantry_level : Bool
  has_z_tilt : Bool
  center_x : ℚ
  center_y : ℚ
  endstop_x : ℚ
  endstop_y : ℚ
  z_hop : ℚ
  z_hop_speed : ℚ
  position_max : ℚ
  ignore_alignment : Bool
  ignore_endstopoffset : Bool
  speed : ℚ
  offsetadjust : ℚ
  internalendstopoffset : ℚ
  offset_min : ℚ
  offset_max : ℚ
  endstop_min : ℚ
  endstop_max : ℚ
deriving DecidableEq, Repr

/-- Builds the `Config` record from the raw options once a sensor section
has been selected and its x/y offsets extracted. -/
def mkConfig (rc : RawConfig) (xo yo : ℚ) (at_ : AdjustType) : Config :=
  { center_x_pos := rc.center_x
    center_y_pos := rc.center_y
    endstop_x_pos := rc.endstop_x
    endstop_y_pos := rc.endstop_y
    z_hop := rc.z_hop
    z_hop_speed := rc.z_hop_speed
    max_z := rc.position_max
    ignore_alignment := rc.ignore_alignment
    ignore_endstopoffset := rc.ignore_endstopoffset
    speed := rc.speed
    offsetadjust := rc.offsetadjust
    internalendstopoffset := rc.internalendstopoffset
    offset_min := rc.offset_min
    offset_max := rc.offset_max
    endstop_min := rc.endstop_min
    endstop_max := rc.endstop_max
    x_offset := xo
    y_offset := yo
    adjusttype := at_ }

/-- Embedding of the alignment-mode resolution of `__init__`
(lines 66-73): `quad_gantry_level` section wins, then `z_tilt`, then the
`ignore_alignment` flag; otherwise a config error is raised. -/
def resolveAdjustType (rc : RawConfig) : Except String AdjustType :=
  if rc.has_quad_gantry_level then .ok .qgl
  else if rc.has_z_tilt then .ok .ztilt
  else if rc.ignore_alignment then .ok .ignore
  else .error "AutoOffsetZ: This can only be used if your config contains a section [quad_gantry_level] or [z_tilt]."

/-- Embedding of `AutoOffsetZCalibration.__init__` (lines 15-73): sensor
section selection (bltouch first, then probe), degenerate-offset and
virtual-endstop checks on the selected section, then alignment-mode
resolution. -/
def init (rc : RawConfig) : Except String Config :=
  if rc.has_bltouch then
    if rc.bltouch_x_offset = 0 ∧ rc.bltouch_y_offset = 0 then
      .error "AutoOffsetZ: Check the x and y offset [bltouch] - it seems both are zero"
    else if rc.endstop_pin_has_virtual_endstop then
      .error "AutoOffsetZ: BLTouch can not be used as z endstop with this command - use a physical endstop instead."
    else
      (resolveAdjustType rc).map (mkConfig rc rc.bltouch_x_offset rc.bltouch_y_offset)
  else if rc.has_probe then
    if rc.probe_x_offset = 0 ∧ rc.probe_y_offset = 0 then
      .error "AutoOffsetZ: Check the x and y offset from [probe] - it seems both are 0"
    else if rc.endstop_pin_has_virtual_endstop then
      .error "AutoOffsetZ: Probe can not be used as z endstop - use a physical endstop instead."
    else
      (resolveAdjustType rc).map (mkConfig rc rc.probe_x_offset rc.probe_y_offset)
  else
    .error "AutoOffsetZ: No bltouch or probe in configured in your system - check your setup."

instance : DecidableEq (Except String Unit) := fun a b =>
  match a, b with
  | .ok (), .ok () => isTrue rfl
  | .ok (), .error _ => isFalse fun h => Except.noConfusion h
  | .error _, .ok () => isFalse fun h => Except.noConfusion h
  | .error s, .error t =>
      if h : s = t then isTrue (by rw [h])
      else isFalse fun hc => h (Except.error.inj hc)

/-- External commands issued by `cmd_AUTO_OFFSET_Z`, in order. -/
inductive Event where
  | respondInfo (msg : String)
  | setGcodeOffset (z : ℚ)
  | manualMoveXY (x y speed : ℚ)
  | manualMoveZ (z speed : ℚ)
  | runProbe
  | report (bed endstop diff adjust offset : ℚ)
deriving DecidableEq, Repr

/-- The external state consumed by one invocation of `AUTO_OFFSET_Z`:
homing state, the `applied` status of each leveling subsystem, the two
probe results (3-component positions, z last), and the `OFFSETADJUST`
gcode parameter (0 when absent, its `get_float` default). -/
structure CmdInputs where
  homed_x : Bool
  homed_y : Bool
  homed_z : Bool
  qgl_applied : Bool
  ztilt_applied : Bool
  zendstop : ℚ × ℚ × ℚ
  zbed : ℚ × ℚ × ℚ
  paramoffsetadjust : ℚ
deriving DecidableEq, Repr

/-- Result of one invocation: the trace of external commands, the outcome
(`gcmd.error` message or normal return), the post-invocation `self` fields
(the code mutates `self.internalendstopoffset`), and the offset value
computed at lines 166/169 when that point is reached. -/
structure CmdResult where
  events : List Event
  outcome : Except String Unit
  finalConfig : Config
  computedOffset : Option ℚ
deriving DecidableEq, Repr

/-- Events of lines 128-157: baseline `SET_GCODE_OFFSET Z=0`, the move to
the endstop position and probe, a z hop when `self.z_hop` is truthy
(nonzero), the move to the center position and probe, and the second
conditional z hop. -/
def probeEvents (cfg : Config) : List Event :=
  [Event.setGcodeOffset 0,
    Event.respondInfo "AutoOffsetZ: Probing endstop ...",
    Event.manualMoveXY (cfg.endstop_x_pos - cfg.x_offset) (cfg.endstop_y_pos - cfg.y_offset) cfg.speed,
    Event.runProbe]
  ++ (if cfg.z_hop ≠ 0 then [Event.manualMoveZ cfg.z_hop cfg.z_hop_speed] else [])
  ++ [Event.respondInfo "AutoOffsetZ: Probing bed ...",
    Event.manualMoveXY (cfg.center_x_pos - cfg.x_offset) (cfg.center_y_pos - cfg.y_offset) cfg.speed,
    Event.runProbe]
  ++ (if cfg.z_hop ≠ 0 then [Event.manualMoveZ cfg.z_hop cfg.z_hop_speed] else [])

/-- The `self` record after the line 160-161 mutation: when
`ignore_endstopoffset` is set, `internalendstopoffset` is overwritten
with 0. -/
def mutatedConfig (cfg : Config) : Config :=
  if cfg.ignore_endstopoffset then { cfg with internalendstopoffset := 0 } else cfg

/-- The adjust summand selected by the `paramoffsetadjust != 0` test of
line 165: the `OFFSETADJUST` parameter when nonzero, else the configured
`self.offsetadjust`.  (Lines 165-169 duplicate the offset formula in two
branches that differ only in this summand and the report label.) -/
def adjustUsed (cfg : Config) (inp : CmdInputs) : ℚ :=
  if inp.paramoffsetadjust ≠ 0 then inp.paramoffsetadjust else cfg.offsetadjust

/-- The offset computed at lines 160-169:
`rounding(0 - (zendstop - zbed) + internalendstopoffset + adjust, 3)`,
with `internalendstopoffset` read after the `ignore_endstopoffset`
mutation. -/
def computedOffsetQ (cfg : Config) (inp : CmdInputs) : ℚ :=
  rounding (0 - (inp.zendstop.2.2 - inp.zbed.2.2)
    + (mutatedConfig cfg).internalendstopoffset + adjustUsed cfg inp) 3

/-- All events emitted between the alignment check and the fail-safe
checks: the probe/hop trace, the optional note that the internal endstop
offset is being ignored (line 162), and the line 167/170 report. -/
def preCommitEvents (cfg : Config) (inp : CmdInputs) (ev0 : List Event) : List Event :=
  ev0 ++ probeEvents cfg
    ++ (if cfg.ignore_endstopoffset then
      [Event.respondInfo "AutoOffsetZ: Igoring internal endstop offset as you requested by config ..."]
      else [])
    ++ [Event.report inp.zbed.2.2 inp.zendstop.2.2 (inp.zendstop.2.2 - inp.zbed.2.2)
      (adjustUsed cfg inp) (computedOffsetQ cfg inp)]

/-- The straight-line tail of `cmd_AUTO_OFFSET_Z` after the homing and
alignment checks have passed (lines 128-182): baseline offset reset, the
two probe sequences each followed by a conditional z hop
(`probeEvents`), the `ignore_endstopoffset` mutation, the offset
computation, the fail-safe bound checks (lines 172-180) and `set_offset`
(lines 186-196: reset to 0, then set the new offset). -/
def afterAlign (cfg : Config) (inp : CmdInputs) (ev0 : List Event) : CmdResult :=
  if computedOffsetQ cfg inp < cfg.offset_min ∨ computedOffsetQ cfg inp > cfg.offset_max then
    ⟨preCommitEvents cfg inp ev0,
      .error "AutoOffsetZ: Your calculated offset is out of config limits! - abort...",
      mutatedConfig cfg, some (computedOffsetQ cfg inp)⟩
  else if cfg.endstop_min ≠ 0 ∧ inp.zendstop.2.2 < cfg.endstop_min then
    ⟨preCommitEvents cfg inp ev0,
      .error "AutoOffsetZ: Your endstop value is out of config limits! (Min) - abort...",
      mutatedConfig cfg, some (computedOffsetQ cfg inp)⟩
  else if cfg.endstop_max ≠ 0 ∧ inp.zendstop.2.2 > cfg.endstop_max then
    ⟨preCommitEvents cfg inp ev0,
      .error "AutoOffsetZ: Your endstop value is out of config limits! (Max) - abort...",
      mutatedConfig cfg, some (computedOffsetQ cfg inp)⟩
  else
    ⟨preCommitEvents cfg inp ev0 ++ [Event.setGcodeOffset 0, Event.setGcodeOffset (computedOffsetQ cfg inp)],
      .ok (), mutatedConfig cfg, some (computedOffsetQ cfg inp)⟩

/-- Embedding of `cmd_AUTO_OFFSET_Z` (lines 82-182).  The homing check
(lines 94-97) precedes the per-`adjusttype` alignment check
(lines 99-122), which precedes the first external command. -/
def cmd_AUTO_OFFSET_Z (cfg : Config) (inp : CmdInputs) : CmdResult :=
  if !inp.homed_x || !inp.homed_y || !inp.homed_z then
    ⟨[], .error "You must home X, Y and Z axes first", cfg, none⟩
  else
    match cfg.adjusttype with
    | .qgl =>
      if !inp.qgl_applied then
        ⟨[], .error "AutoOffsetZ: You have to do a quad gantry level first", cfg, none⟩
      else
        afterAlign cfg inp []
    | .ztilt =>
      if !inp.ztilt_applied then
        ⟨[], .error "AutoOffsetZ: You have to do a z tilt first", cfg, none⟩
      else
        afterAlign cfg inp []
    | .ignore =>
      afterAlign cfg inp
        [Event.respondInfo "AutoOffsetZ: Ignoring alignment as you requested by config ..."]

/-- True when the alignment precondition of the active `adjusttype` holds
(the `applied == 1` checks of lines 106 and 116; `ignore` always passes). -/
def alignOk (cfg : Config) (inp : CmdInputs) : Bool :=
  match cfg.adjusttype with
  | .qgl => inp.qgl_applied
  | .ztilt => inp.ztilt_applied
  | .ignore => true

/-- The z offsets passed to `SET_GCODE_OFFSET`, in order of emission. -/
def committedOffsets (evs : List Event) : List ℚ :=
  evs.filterMap fun e => match e with
    | .setGcodeOffset z => some z
    | _ => none

/-- How many bare-Z moves (the z-hop moves) a trace contains. -/
def countZMoves (evs : List Event) : ℕ :=
  (evs.filter fun e => match e with
    | .manualMoveZ _ _ => true
    | _ => false).length

/-- The events the alignment stage prepends: the informational notice when
`adjusttype` is `ignore` (line 120), nothing otherwise. -/
def alignEvents (cfg : Config) : List Event :=
  if cfg.adjusttype = .ignore then
    [Event.respondInfo "AutoOffsetZ: Ignoring alignment as you requested by config ..."]
  else []

/-- The alignment-failure error message of the active `adjusttype`
(lines 107 and 117; unused for `ignore`). -/
def alignErrMsg (cfg : Config) : String :=
  match cfg.adjusttype with
  | .qgl => "AutoOffsetZ: You have to do a quad gantry level first"
  | .ztilt => "AutoOffsetZ: You have to do a z tilt first"
  | .ignore => ""

/-- A concrete configuration for witness theorems: a bltouch-style qgl
machine with the option defaults of `__init__`. -/
def cfgW : Config :=
  { center_x_pos := 150, center_y_pos := 150
    endstop_x_pos := 300, endstop_y_pos := 0
    z_hop := 10, z_hop_speed := 15, max_z := 250
    ignore_alignment := false, ignore_endstopoffset := false
    speed := 50, offsetadjust := 0, internalendstopoffset := 1/2
    offset_min := -1, offset_max := 1, endstop_min := 0, endstop_max := 0
    x_offset := -43, y_offset := -6, adjusttype := .qgl }

/-- Concrete inputs: all axes homed, leveling applied, endstop probe at
z = 1, bed probe at z = 1/2, no `OFFSETADJUST` parameter. -/
def inpW : CmdInputs :=
  { homed_x := true, homed_y := true, homed_z := true
    qgl_applied := true, ztilt_applied := true
    zendstop := (300, 0, 1), zbed := (150, 150, 1/2)
    paramoffsetadjust := 0 }

/-- Like `inpW` but with the Y axis unhomed. -/
def inpNH : CmdInputs := { inpW with homed_y := false }

/-- Like `inpW` but with an endstop measurement so high that the computed
offset falls below `offset_min`. -/
def inpBad : CmdInputs := { inpW with zendstop := (300, 0, 5) }

/-- Like `inpW` but with a negative endstop measurement (bed at 0). -/
def inpNegZ : CmdInputs := { inpW with zendstop := (300, 0, -(1/4)), zbed := (150, 150, 0) }

/-- `cfgW` with a negative configured `z_hop`. -/
def cfgNegHop : Config := { cfgW with z_hop := -1 }

/-- `cfgW` with `ignore_endstopoffset` set. -/
def cfgIgnoreEO : Config := { cfgW with ignore_endstopoffset := true }

/-- Whether `__init__` succeeds (no config error raised) on a raw
configuration. -/
def initOk (rc : RawConfig) : Bool :=
  match init rc with
  | .ok _ => true
  | .error _ => false

/-- A raw configuration declaring BOTH sensor sections (each with valid
offsets) and BOTH alignment sections, with a physical endstop pin. -/
def rcBoth : RawConfig :=
  { has_bltouch := true, bltouch_x_offset := -43, bltouch_y_offset := -6
    has_probe := true, probe_x_offset := 20, probe_y_offset := 5
    endstop_pin_has_virtual_endstop := false
    has_quad_gantry_level := true, has_z_tilt := true
    center_x := 150, center_y := 150, endstop_x := 300, endstop_y := 0
    z_hop := 10, z_hop_speed := 15, position_max := 250
    ignore_alignment := false, ignore_endstopoffset := false
    speed := 50, offsetadjust := 0, internalendstopoffset := 1/2
    offset_min := -1, offset_max := 1, endstop_min := 0, endstop_max := 0 }

theorem ratAbs_eq_abs (q : ℚ) : ratAbs q = |q| := by
  unfold ratAbs
  split
  · exact (abs_of_neg (by assumption)).symm
  · exact (abs_of_nonneg (le_of_not_lt (by assumption))).symm

theorem ratFloor_eq_floor (q : ℚ) : ratFloor q = ⌊q⌋ := Rat.floor_def.symm

theorem ratCeil_eq_ceil (q : ℚ) : ratCeil q = ⌈q⌉ := by
  unfold ratCeil
  rw [ratFloor_eq_floor, Int.floor_neg, neg_neg]

/-- On a nonpositive argument the `abs(expoN) - abs(floor(expoN))` test is
always nonpositive, so `rounding` always takes the floor branch: it rounds
toward minus infinity, i.e. away from zero in magnitude. -/
theorem rounding_of_nonpos (n : ℚ) (d : ℕ) (h : n ≤ 0) :
    rounding n d = (⌊n * 10 ^ d⌋ : ℚ) / 10 ^ d := by
  have hp : (0:ℚ) < 10 ^ d := by positivity
  have he : n * 10 ^ d ≤ 0 := mul_nonpos_iff.mpr (Or.inr ⟨h, hp.le⟩)
  have hfl : (⌊n * 10 ^ d⌋ : ℚ) ≤ n * 10 ^ d := Int.floor_le _
  have hfl0 : (⌊n * 10 ^ d⌋ : ℚ) ≤ 0 := hfl.trans he
  unfold rounding
  rw [ratFloor_eq_floor, ratAbs_eq_abs, ratAbs_eq_abs, if_pos]
  rw [abs_of_nonpos he, abs_of_nonpos hfl0]
  linarith

/-- On a nonnegative argument whose scaled fractional part is below one
half, `rounding` takes the floor branch. -/
theorem rounding_of_nonneg_lt (n : ℚ) (d : ℕ) (h : 0 ≤ n)
    (hf : Int.fract (n * 10 ^ d) < 1/2) :
    rounding n d = (⌊n * 10 ^ d⌋ : ℚ) / 10 ^ d := by
  have hp : (0:ℚ) < 10 ^ d := by positivity
  have he : 0 ≤ n * 10 ^ d := mul_nonneg h hp.le
  have hfl0 : (0:ℚ) ≤ (⌊n * 10 ^ d⌋ : ℚ) := by
    exact_mod_cast Int.floor_nonneg.mpr he
  have hfr : n * 10 ^ d - (⌊n * 10 ^ d⌋ : ℚ) = Int.fract (n * 10 ^ d) :=
    Int.self_sub_floor _
  unfold rounding
  rw [ratFloor_eq_floor, ratAbs_eq_abs, ratAbs_eq_abs, if_pos]
  rw [abs_of_nonneg he, abs_of_nonneg hfl0]
  linarith

/-- On a nonnegative argument whose scaled fractional part is at least one
half, `rounding` takes the ceiling branch (halves round up). -/
theorem rounding_of_nonneg_ge (n : ℚ) (d : ℕ) (h : 0 ≤ n)
    (hf : 1/2 ≤ Int.fract (n * 10 ^ d)) :
    rounding n d = (⌈n * 10 ^ d⌉ : ℚ) / 10 ^ d := by
  have hp : (0:ℚ) < 10 ^ d := by positivity
  have he : 0 ≤ n * 10 ^ d := mul_nonneg h hp.le
  have hfl0 : (0:ℚ) ≤ (⌊n * 10 ^ d⌋ : ℚ) := by
    exact_mod_cast Int.floor_nonneg.mpr he
  have hfr : n * 10 ^ d - (⌊n * 10 ^ d⌋ : ℚ) = Int.fract (n * 10 ^ d) :=
    Int.self_sub_floor _
  unfold rounding
  rw [ratFloor_eq_floor, ratCeil_eq_ceil, ratAbs_eq_abs, ratAbs_eq_abs, if_neg]
  rw [abs_of_nonneg he, abs_of_nonneg hfl0]
  linarith

/-- `rounding` is the identity on exact multiples of `10 ^ -d`. -/
theorem rounding_intCast_div (c : ℤ) (d : ℕ) :
    rounding ((c : ℚ) / 10 ^ d) d = (c : ℚ) / 10 ^ d := by
  have hp : (10:ℚ) ^ d ≠ 0 := by positivity
  have he : (c : ℚ) / 10 ^ d * 10 ^ d = (c : ℚ) := div_mul_cancel₀ _ hp
  unfold rounding
  rw [he, ratFloor_eq_floor, Int.floor_intCast, if_pos]
  rw [sub_self (ratAbs (c : ℚ))]
  norm_num

/-- `rounding` at a fixed decimal count is idempotent. -/
theorem rounding_idem (v : ℚ) (d : ℕ) :
    rounding (rounding v d) d = rounding v d := by
  have hsplit : rounding v d = ((ratFloor (v * 10 ^ d) : ℚ)) / 10 ^ d ∨
      rounding v d = ((ratCeil (v * 10 ^ d) : ℚ)) / 10 ^ d := by
    unfold rounding
    split
    · exact Or.inl rfl
    · exact Or.inr rfl
  rcases hsplit with h | h <;> rw [h] <;> exact rounding_intCast_div _ _

/-- For nonnegative arguments `rounding` returns a nearest multiple of
`10 ^ -d` (with halves going up). -/
theorem rounding_nearest_of_nonneg (v : ℚ) (d : ℕ) (h : 0 ≤ v) (m : ℤ) :
    |v - rounding v d| ≤ |v - (m : ℚ) / 10 ^ d| := by
  have hp : (0:ℚ) < 10 ^ d := by positivity
  have hv : v = v * 10 ^ d / 10 ^ d := (mul_div_cancel_right₀ v hp.ne').symm
  have habs : ∀ k : ℤ, |v - (k : ℚ) / 10 ^ d| = |v * 10 ^ d - (k : ℚ)| / 10 ^ d := by
    intro k
    rw [show v - (k : ℚ) / 10 ^ d = (v * 10 ^ d - (k : ℚ)) / 10 ^ d by
      rw [sub_div, ← hv]]
    rw [abs_div, abs_of_pos hp]
  have hfl : (⌊v * 10 ^ d⌋ : ℚ) ≤ v * 10 ^ d := Int.floor_le _
  have hfl1 : v * 10 ^ d < (⌊v * 10 ^ d⌋ : ℚ) + 1 := Int.lt_floor_add_one _
  have hfr : v * 10 ^ d - (⌊v * 10 ^ d⌋ : ℚ) = Int.fract (v * 10 ^ d) :=
    Int.self_sub_floor _
  rcases lt_or_le (Int.fract (v * 10 ^ d)) (1/2) with hhalf | hhalf
  · rw [rounding_of_nonneg_lt v d h hhalf, habs, habs,
      div_le_div_iff_of_pos_right hp]
    rw [abs_of_nonneg (by linarith)]
    rcases le_or_lt m ⌊v * 10 ^ d⌋ with hm | hm
    · have hmq : (m : ℚ) ≤ (⌊v * 10 ^ d⌋ : ℚ) := by exact_mod_cast hm
      rw [abs_of_nonneg (by linarith)]
      linarith
    · have hmq : (⌊v * 10 ^ d⌋ : ℚ) + 1 ≤ (m : ℚ) := by exact_mod_cast hm
      rw [abs_of_nonpos (by linarith)]
      linarith
  · rw [rounding_of_nonneg_ge v d h hhalf, habs, habs,
      div_le_div_iff_of_pos_right hp]
    have hceil : (⌈v * 10 ^ d⌉ : ℤ) = ⌊v * 10 ^ d⌋ + 1 := by
      have h1 : ⌈v * 10 ^ d⌉ ≤ ⌊v * 10 ^ d⌋ + 1 := by
        apply Int.ceil_le.mpr
        push_cast
        linarith
      have h2 : ⌊v * 10 ^ d⌋ < ⌈v * 10 ^ d⌉ := by
        have hlt : (⌊v * 10 ^ d⌋ : ℚ) < (⌈v * 10 ^ d⌉ : ℚ) :=
          lt_of_lt_of_le (by linarith) (Int.le_ceil _)
        exact_mod_cast hlt
      omega
    have hcq : (⌈v * 10 ^ d⌉ : ℚ) = (⌊v * 10 ^ d⌋ : ℚ) + 1 := by
      exact_mod_cast hceil
    rw [hcq, abs_of_nonpos (by linarith)]
    rcases le_or_lt m ⌊v * 10 ^ d⌋ with hm | hm
    · have hmq : (m : ℚ) ≤ (⌊v * 10 ^ d⌋ : ℚ) := by exact_mod_cast hm
      rw [abs_of_nonneg (by linarith)]
      linarith
    · have hmq : (⌊v * 10 ^ d⌋ : ℚ) + 1 ≤ (m : ℚ) := by exact_mod_cast hm
      rw [abs_of_nonpos (by linarith)]
      linarith

theorem afterAlign_computedOffset (cfg : Config) (inp : CmdInputs) (ev0 : List Event) :
    (afterAlign cfg inp ev0).computedOffset = some (computedOffsetQ cfg inp) := by
  unfold afterAlign
  split_ifs <;> rfl

theorem afterAlign_finalConfig (cfg : Config) (inp : CmdInputs) (ev0 : List Event) :
    (afterAlign cfg inp ev0).finalConfig = mutatedConfig cfg := by
  unfold afterAlign
  split_ifs <;> rfl

/-- The per-run observables of `afterAlign`: the outcome together with the
exact event trace, split on which (if any) fail-safe check fired. -/
theorem afterAlign_cases (cfg : Config) (inp : CmdInputs) (ev0 : List Event) :
    ((afterAlign cfg inp ev0).outcome = .ok () ∧
      ¬(computedOffsetQ cfg inp < cfg.offset_min ∨ computedOffsetQ cfg inp > cfg.offset_max) ∧
      ¬(cfg.endstop_min ≠ 0 ∧ inp.zendstop.2.2 < cfg.endstop_min) ∧
      ¬(cfg.endstop_max ≠ 0 ∧ inp.zendstop.2.2 > cfg.endstop_max) ∧
      (afterAlign cfg inp ev0).events = preCommitEvents cfg inp ev0
        ++ [Event.setGcodeOffset 0, Event.setGcodeOffset (computedOffsetQ cfg inp)]) ∨
    ((afterAlign cfg inp ev0).outcome ≠ .ok () ∧
      ((computedOffsetQ cfg inp < cfg.offset_min ∨ computedOffsetQ cfg inp > cfg.offset_max) ∨
        (cfg.endstop_min ≠ 0 ∧ inp.zendstop.2.2 < cfg.endstop_min) ∨
        (cfg.endstop_max ≠ 0 ∧ inp.zendstop.2.2 > cfg.endstop_max)) ∧
      (afterAlign cfg inp ev0).events = preCommitEvents cfg inp ev0) := by
  unfold afterAlign
  split_ifs with h1 h2 h3
  · exact Or.inr ⟨by simp, Or.inl h1, rfl⟩
  · exact Or.inr ⟨by simp, Or.inr (Or.inl h2), rfl⟩
  · exact Or.inr ⟨by simp, Or.inr (Or.inr h3), rfl⟩
  · exact Or.inl ⟨rfl, h1, h2, h3, rfl⟩

theorem committedOffsets_append (l l' : List Event) :
    committedOffsets (l ++ l') = committedOffsets l ++ committedOffsets l' := by
  unfold committedOffsets
  exact List.filterMap_append l l' _

theorem committedOffsets_probeEvents (cfg : Config) :
    committedOffsets (probeEvents cfg) = [0] := by
  unfold probeEvents committedOffsets
  split_ifs <;> rfl

theorem committedOffsets_preCommit (cfg : Config) (inp : CmdInputs) (ev0 : List Event) :
    committedOffsets (preCommitEvents cfg inp ev0) = committedOffsets ev0 ++ [0] := by
  unfold preCommitEvents
  rw [committedOffsets_append, committedOffsets_append, committedOffsets_append,
    committedOffsets_probeEvents]
  split_ifs <;> simp [committedOffsets]

theorem countZMoves_append (l l' : List Event) :
    countZMoves (l ++ l') = countZMoves l + countZMoves l' := by
  unfold countZMoves
  rw [List.filter_append, List.length_append]

theorem countZMoves_probeEvents (cfg : Config) :
    countZMoves (probeEvents cfg) = if cfg.z_hop ≠ 0 then 2 else 0 := by
  unfold probeEvents countZMoves
  split_ifs <;> rfl

theorem countZMoves_preCommit (cfg : Config) (inp : CmdInputs) (ev0 : List Event) :
    countZMoves (preCommitEvents cfg inp ev0) =
      countZMoves ev0 + (if cfg.z_hop ≠ 0 then 2 else 0) := by
  unfold preCommitEvents
  rw [countZMoves_append, countZMoves_append, countZMoves_append,
    countZMoves_probeEvents]
  split_ifs <;> simp [countZMoves]

theorem countZMoves_commitPair (a b : ℚ) :
    countZMoves [Event.setGcodeOffset a, Event.setGcodeOffset b] = 0 := rfl

theorem countZMoves_afterAlign (cfg : Config) (inp : CmdInputs) (ev0 : List Event) :
    countZMoves (afterAlign cfg inp ev0).events =
      countZMoves ev0 + (if cfg.z_hop ≠ 0 then 2 else 0) := by
  unfold afterAlign
  split_ifs with h1 h2 h3 <;>
    simp only [countZMoves_append, countZMoves_preCommit, countZMoves_commitPair,
      add_zero] <;>
    simp_all

theorem committedOffsets_alignEvents (cfg : Config) :
    committedOffsets (alignEvents cfg) = [] := by
  unfold alignEvents committedOffsets
  split_ifs <;> rfl

theorem countZMoves_alignEvents (cfg : Config) :
    countZMoves (alignEvents cfg) = 0 := by
  unfold alignEvents countZMoves
  split_ifs <;> rfl

/-- When some axis is unhomed, `cmd_AUTO_OFFSET_Z` errors immediately
with the line-97 message, emits no event and leaves `self` untouched. -/
theorem cmd_of_not_homed (cfg : Config) (inp : CmdInputs)
    (h : (inp.homed_x && inp.homed_y && inp.homed_z) = false) :
    cmd_AUTO_OFFSET_Z cfg inp =
      ⟨[], .error "You must home X, Y and Z axes first", cfg, none⟩ := by
  have hb : (!inp.homed_x || !inp.homed_y || !inp.homed_z) = true := by
    cases hx : inp.homed_x <;> cases hy : inp.homed_y <;> cases hz : inp.homed_z <;>
      simp_all
  unfold cmd_AUTO_OFFSET_Z
  rw [hb]
  rfl

/-- When the axes are homed but the active leveling subsystem has not been
applied, the command errors with the corresponding message, emits no event
and leaves `self` untouched. -/
theorem cmd_of_align_fail (cfg : Config) (inp : CmdInputs)
    (hx : inp.homed_x = true) (hy : inp.homed_y = true) (hz : inp.homed_z = true)
    (ha : alignOk cfg inp = false) :
    cmd_AUTO_OFFSET_Z cfg inp = ⟨[], .error (alignErrMsg cfg), cfg, none⟩ := by
  unfold cmd_AUTO_OFFSET_Z alignErrMsg
  rw [hx, hy, hz]
  unfold alignOk at ha
  rcases hat : cfg.adjusttype <;> rw [hat] at ha <;> simp_all

/-- When all axes are homed and the active alignment check passes, the
command is exactly its post-alignment tail, prefixed by `alignEvents`. -/
theorem cmd_eq_afterAlign (cfg : Config) (inp : CmdInputs)
    (hx : inp.homed_x = true) (hy : inp.homed_y = true) (hz : inp.homed_z = true)
    (ha : alignOk cfg inp = true) :
    cmd_AUTO_OFFSET_Z cfg inp = afterAlign cfg inp (alignEvents cfg) := by
  unfold cmd_AUTO_OFFSET_Z alignEvents
  rw [hx, hy, hz]
  unfold alignOk at ha
  rcases hat : cfg.adjusttype <;> rw [hat] at ha <;> simp_all

/-- Claim C2 (counterexample): the code does not round `-0.1234` to the
nearest multiple of `10^-3`.  It returns `-0.124` although `-0.123` is
strictly nearer (and the scaled magnitude is not at a half, so the
claimed nearest-rounding clause applies). -/
theorem C2_counterexample :
    rounding (-(1234/10000)) 3 = -(124/1000) ∧
    |(-(1234/10000) : ℚ) - -(123/1000)| < |(-(1234/10000) : ℚ) - rounding (-(1234/10000)) 3| ∧
    Int.fract (ratAbs ((-(1234/10000) : ℚ) * 10 ^ 3)) ≠ 1/2 := by
  have h : rounding (-(1234/10000)) 3 = -(124/1000) := by
    norm_num [rounding, ratAbs, ratFloor, ratCeil]
  refine ⟨h, ?_, ?_⟩
  · rw [h, abs_of_nonpos (by norm_num), abs_of_nonneg (by norm_num)]
    norm_num
  · norm_num [ratAbs, Int.fract]

theorem C2_rounding_behaviour (v : ℚ) (d : ℕ) :
    (v ≤ 0 → rounding v d = (⌊v * 10 ^ d⌋ : ℚ) / 10 ^ d) ∧
    (0 ≤ v → ∀ m : ℤ, |v - rounding v d| ≤ |v - (m : ℚ) / 10 ^ d|) ∧
    (0 ≤ v → 1/2 ≤ Int.fract (v * 10 ^ d) → rounding v d = (⌈v * 10 ^ d⌉ : ℚ) / 10 ^ d) ∧
    rounding (1235/10000) 3 = 124/1000 ∧
    rounding (-(1235/10000)) 3 = -(124/1000) ∧
    rounding (1234/10000) 3 = 123/1000 := by
  refine ⟨rounding_of_nonpos v d, rounding_nearest_of_nonneg v d,
    rounding_of_nonneg_ge v d, ?_, ?_, ?_⟩ <;>
    norm_num [rounding, ratAbs, ratFloor, ratCeil]

theorem C2_rounding_behaviour_witness :
    rounding (-(1234/10000)) 3 = (⌊(-(1234/10000) : ℚ) * 10 ^ 3⌋ : ℚ) / 10 ^ 3 ∧
    |(6/10 : ℚ) - rounding (6/10) 1| ≤ |(6/10 : ℚ) - ((5 : ℤ) : ℚ) / 10 ^ 1| ∧
    rounding (15/10) 0 = (⌈(15/10 : ℚ) * 10 ^ 0⌉ : ℚ) / 10 ^ 0 :=
  ⟨(C2_rounding_behaviour (-(1234/10000)) 3).1 (by norm_num),
   (C2_rounding_behaviour (6/10) 1).2.1 (by norm_num) 5,
   (C2_rounding_behaviour (15/10) 0).2.2.1 (by norm_num)
     (by rw [show (15/10 : ℚ) * 10 ^ 0 = 3/2 by norm_num]; norm_num [Int.fract])⟩

/-- Claim C7: `rounding` at 3 decimals is idempotent:
`rounding (rounding v 3) 3 = rounding v 3` for every value `v`. -/
theorem C7_rounding_idempotent (v : ℚ) :
    rounding (rounding v 3) 3 = rounding v 3 :=
  rounding_idem v 3

theorem afterAlign_outcome_ok_iff (cfg : Config) (inp : CmdInputs) (ev0 : List Event) :
    (afterAlign cfg inp ev0).outcome = .ok () ↔
      ¬(computedOffsetQ cfg inp < cfg.offset_min ∨ computedOffsetQ cfg inp > cfg.offset_max) ∧
      ¬(cfg.endstop_min ≠ 0 ∧ inp.zendstop.2.2 < cfg.endstop_min) ∧
      ¬(cfg.endstop_max ≠ 0 ∧ inp.zendstop.2.2 > cfg.endstop_max) := by
  rcases afterAlign_cases cfg inp ev0 with ⟨hok, h1, h2, h3, _⟩ | ⟨hbad, hfail, _⟩
  · rw [hok]
    exact iff_of_true rfl ⟨h1, h2, h3⟩
  · constructor
    · intro h
      exact absurd h hbad
    · rintro ⟨h1, h2, h3⟩
      rcases hfail with f | f | f
      · exact absurd f h1
      · exact absurd f h2
      · exact absurd f h3

/-- Claim C1: when an invocation reaches the compute step (all axes homed
and the active alignment check passed), the validated/committed offset is
`rounding(-(endstop_z - bed_z) + effective_endstop_offset + adjust, 3)`,
where the effective endstop offset is 0 when `ignore_endstopoffset` is
set and `internalendstopoffset` otherwise, and the adjust term is the
`OFFSETADJUST` parameter when nonzero (absent means 0), else the
configured `offsetadjust`. -/
theorem C1_offset_formula (cfg : Config) (inp : CmdInputs)
    (hx : inp.homed_x = true) (hy : inp.homed_y = true) (hz : inp.homed_z = true)
    (ha : alignOk cfg inp = true) :
    (cmd_AUTO_OFFSET_Z cfg inp).computedOffset =
      some (rounding (-(inp.zendstop.2.2 - inp.zbed.2.2)
        + (if cfg.ignore_endstopoffset then 0 else cfg.internalendstopoffset)
        + (if inp.paramoffsetadjust ≠ 0 then inp.paramoffsetadjust
           else cfg.offsetadjust)) 3) := by
  rw [cmd_eq_afterAlign cfg inp hx hy hz ha, afterAlign_computedOffset]
  unfold computedOffsetQ mutatedConfig adjustUsed
  congr 2
  split_ifs <;> simp

theorem C1_offset_formula_witness :
    (cmd_AUTO_OFFSET_Z cfgW inpW).computedOffset =
      some (rounding (-(inpW.zendstop.2.2 - inpW.zbed.2.2)
        + (if cfgW.ignore_endstopoffset then 0 else cfgW.internalendstopoffset)
        + (if inpW.paramoffsetadjust ≠ 0 then inpW.paramoffsetadjust
           else cfgW.offsetadjust)) 3) :=
  C1_offset_formula cfgW inpW rfl rfl rfl rfl

/-- Claim C6: if any axis is unhomed the command fails with the line-97
message and issues no move, probe or offset command at all — the trace is
empty — regardless of the alignment subsystem state. -/
theorem C6_not_homed_aborts (cfg : Config) (inp : CmdInputs)
    (h : (inp.homed_x && inp.homed_y && inp.homed_z) = false) :
    (cmd_AUTO_OFFSET_Z cfg inp).outcome = .error "You must home X, Y and Z axes first" ∧
    (cmd_AUTO_OFFSET_Z cfg inp).events = [] := by
  rw [cmd_of_not_homed cfg inp h]
  exact ⟨rfl, rfl⟩

theorem C6_not_homed_aborts_witness :
    (cmd_AUTO_OFFSET_Z cfgW inpNH).outcome = .error "You must home X, Y and Z axes first" ∧
    (cmd_AUTO_OFFSET_Z cfgW inpNH).events = [] :=
  C6_not_homed_aborts cfgW inpNH rfl

/-- Claim C4: once the compute step is reached, a failed bounds check
aborts before `set_offset`, leaving the `SET_GCODE_OFFSET` trace at
exactly the step-3 baseline `[0]`; when validation passes the commit
appends 0 and then the rounded computed offset, never a partial or
unrounded value. -/
theorem C4_failsafe_commit (cfg : Config) (inp : CmdInputs)
    (hx : inp.homed_x = true) (hy : inp.homed_y = true) (hz : inp.homed_z = true)
    (ha : alignOk cfg inp = true) :
    ((cmd_AUTO_OFFSET_Z cfg inp).outcome ≠ .ok () →
      committedOffsets (cmd_AUTO_OFFSET_Z cfg inp).events = [0]) ∧
    ((cmd_AUTO_OFFSET_Z cfg inp).outcome = .ok () →
      committedOffsets (cmd_AUTO_OFFSET_Z cfg inp).events =
        [0, 0, computedOffsetQ cfg inp]) := by
  rw [cmd_eq_afterAlign cfg inp hx hy hz ha]
  rcases afterAlign_cases cfg inp (alignEvents cfg) with ⟨hok, _, _, _, hev⟩ | ⟨hbad, _, hev⟩
  · refine ⟨fun hne => absurd hok hne, fun _ => ?_⟩
    rw [hev, committedOffsets_append, committedOffsets_preCommit,
      committedOffsets_alignEvents]
    rfl
  · refine ⟨fun _ => ?_, fun hok => absurd hok hbad⟩
    rw [hev, committedOffsets_preCommit, committedOffsets_alignEvents]
    rfl

theorem C4_failsafe_commit_witness :
    committedOffsets (cmd_AUTO_OFFSET_Z cfgW inpBad).events = [0] ∧
    committedOffsets (cmd_AUTO_OFFSET_Z cfgW inpW).events =
      [0, 0, computedOffsetQ cfgW inpW] := by
  constructor
  · refine (C4_failsafe_commit cfgW inpBad rfl rfl rfl rfl).1 ?_
    rw [cmd_eq_afterAlign cfgW inpBad rfl rfl rfl rfl]
    intro hok
    rw [afterAlign_outcome_ok_iff] at hok
    refine hok.1 (Or.inl ?_)
    norm_num [computedOffsetQ, mutatedConfig, adjustUsed, cfgW, inpBad, inpW,
      rounding, ratAbs, ratFloor, ratCeil]
  · refine (C4_failsafe_commit cfgW inpW rfl rfl rfl rfl).2 ?_
    rw [cmd_eq_afterAlign cfgW inpW rfl rfl rfl rfl, afterAlign_outcome_ok_iff]
    refine ⟨?_, ?_, ?_⟩ <;>
      norm_num [computedOffsetQ, mutatedConfig, adjustUsed, cfgW, inpW,
        rounding, ratAbs, ratFloor, ratCeil]

/-- Claim C5: when the offset bound check passes, the run succeeds exactly
when each enabled endstop bound is respected; a bound configured as 0
disables that side entirely (a negative measurement passes a disabled
lower bound). -/
theorem C5_endstop_bounds (cfg : Config) (inp : CmdInputs)
    (hx : inp.homed_x = true) (hy : inp.homed_y = true) (hz : inp.homed_z = true)
    (ha : alignOk cfg inp = true)
    (hoff : ¬(computedOffsetQ cfg inp < cfg.offset_min ∨
      computedOffsetQ cfg inp > cfg.offset_max)) :
    ((cmd_AUTO_OFFSET_Z cfg inp).outcome = .ok () ↔
      ((cfg.endstop_min = 0 ∨ cfg.endstop_min ≤ inp.zendstop.2.2) ∧
       (cfg.endstop_max = 0 ∨ inp.zendstop.2.2 ≤ cfg.endstop_max))) := by
  rw [cmd_eq_afterAlign cfg inp hx hy hz ha, afterAlign_outcome_ok_iff]
  constructor
  · rintro ⟨_, h2, h3⟩
    constructor
    · by_cases hmin : cfg.endstop_min = 0
      · exact Or.inl hmin
      · exact Or.inr (not_lt.mp fun hlt => h2 ⟨hmin, hlt⟩)
    · by_cases hmax : cfg.endstop_max = 0
      · exact Or.inl hmax
      · exact Or.inr (not_lt.mp fun hgt => h3 ⟨hmax, hgt⟩)
  · rintro ⟨h2, h3⟩
    refine ⟨hoff, ?_, ?_⟩
    · rintro ⟨hne, hlt⟩
      rcases h2 with h | h
      · exact hne h
      · exact absurd hlt (not_lt.mpr h)
    · rintro ⟨hne, hgt⟩
      rcases h3 with h | h
      · exact hne h
      · exact absurd hgt (not_lt.mpr h)

theorem C5_endstop_bounds_witness :
    inpNegZ.zendstop.2.2 < 0 ∧ cfgW.endstop_min = 0 ∧
    (cmd_AUTO_OFFSET_Z cfgW inpNegZ).outcome = .ok () := by
  refine ⟨by norm_num [inpNegZ, inpW], rfl, ?_⟩
  refine (C5_endstop_bounds cfgW inpNegZ rfl rfl rfl rfl ?_).mpr ⟨Or.inl rfl, Or.inl rfl⟩
  norm_num [computedOffsetQ, mutatedConfig, adjustUsed, cfgW, inpNegZ, inpW,
    rounding, ratAbs, ratFloor, ratCeil]

/-- Claim C8 (amended): after each of the two probing operations a z move
of `z_hop` at `z_hop_speed` is commanded iff the configured `z_hop` is
nonzero (Python truthiness of `if self.z_hop:`, not `> 0`); both hops are
emitted in every run that reaches probing, regardless of a later
validation failure. -/
theorem C8_zhop_moves (cfg : Config) (inp : CmdInputs)
    (hx : inp.homed_x = true) (hy : inp.homed_y = true) (hz : inp.homed_z = true)
    (ha : alignOk cfg inp = true) :
    countZMoves (cmd_AUTO_OFFSET_Z cfg inp).events =
      (if cfg.z_hop ≠ 0 then 2 else 0) := by
  rw [cmd_eq_afterAlign cfg inp hx hy hz ha, countZMoves_afterAlign,
    countZMoves_alignEvents, zero_add]

theorem C8_zhop_moves_witness :
    countZMoves (cmd_AUTO_OFFSET_Z cfgW inpW).events =
      (if cfgW.z_hop ≠ 0 then 2 else 0) :=
  C8_zhop_moves cfgW inpW rfl rfl rfl rfl

/-- Claim C8 (counterexample): a configured `z_hop` of `-1` is not
`> 0`, yet the code still commands the two z moves, because the source
tests Python truthiness (`if self.z_hop:`), not positivity. -/
theorem C8_counterexample :
    cfgNegHop.z_hop < 0 ∧
    countZMoves (cmd_AUTO_OFFSET_Z cfgNegHop inpW).events = 2 := by
  have h : cfgNegHop.z_hop ≠ 0 := by norm_num [cfgNegHop, cfgW]
  constructor
  · norm_num [cfgNegHop, cfgW]
  · rw [cmd_eq_afterAlign cfgNegHop inpW rfl rfl rfl rfl, countZMoves_afterAlign,
      countZMoves_alignEvents, zero_add, if_pos h]

theorem mutatedConfig_of_false (cfg : Config) (h : cfg.ignore_endstopoffset = false) :
    mutatedConfig cfg = cfg := by
  unfold mutatedConfig
  rw [h]
  rfl

theorem mutatedConfig_of_true (cfg : Config) (h : cfg.ignore_endstopoffset = true) :
    mutatedConfig cfg = { cfg with internalendstopoffset := 0 } := by
  unfold mutatedConfig
  rw [h]
  rfl

theorem cmd_finalConfig_cases (cfg : Config) (inp : CmdInputs) :
    (cmd_AUTO_OFFSET_Z cfg inp).finalConfig = cfg ∨
    (cmd_AUTO_OFFSET_Z cfg inp).finalConfig = mutatedConfig cfg := by
  by_cases hh : (inp.homed_x && inp.homed_y && inp.homed_z) = true
  · obtain ⟨⟨hx, hy⟩, hz⟩ : (inp.homed_x = true ∧ inp.homed_y = true) ∧ inp.homed_z = true := by
      simpa [Bool.and_eq_true] using hh
    by_cases ha : alignOk cfg inp = true
    · right
      rw [cmd_eq_afterAlign cfg inp hx hy hz ha, afterAlign_finalConfig]
    · left
      have ha' : alignOk cfg inp = false := by
        revert ha; cases alignOk cfg inp <;> simp
      rw [cmd_of_align_fail cfg inp hx hy hz ha']
  · left
    have hh' : (inp.homed_x && inp.homed_y && inp.homed_z) = false := by
      revert hh; cases (inp.homed_x && inp.homed_y && inp.homed_z) <;> simp
    rw [cmd_of_not_homed cfg inp hh']

/-- With `ignore_endstopoffset` set, the post-alignment tail behaves the
same whether started from the original configuration or from the one in
which `internalendstopoffset` has already been overwritten with 0. -/
theorem afterAlign_mutated (cfg : Config) (inp : CmdInputs) (ev0 : List Event)
    (hig : cfg.ignore_endstopoffset = true) :
    afterAlign { cfg with internalendstopoffset := 0 } inp ev0 =
      afterAlign cfg inp ev0 := by
  have hco : computedOffsetQ { cfg with internalendstopoffset := 0 } inp =
      computedOffsetQ cfg inp := by
    simp [computedOffsetQ, mutatedConfig, adjustUsed, hig]
  have hmc : mutatedConfig { cfg with internalendstopoffset := 0 } =
      mutatedConfig cfg := by
    simp [mutatedConfig, hig]
  have hpc : preCommitEvents { cfg with internalendstopoffset := 0 } inp ev0 =
      preCommitEvents cfg inp ev0 := by
    unfold preCommitEvents
    rw [hco]
    exact rfl
  unfold afterAlign
  rw [hco, hmc, hpc]

/-- Running the command on the mutated configuration reproduces the run on
the original configuration: the line-161 overwrite happens before the
value is used, and overwriting 0 with 0 changes nothing. -/
theorem cmd_mutated_eq (cfg : Config) (inp : CmdInputs)
    (hx : inp.homed_x = true) (hy : inp.homed_y = true) (hz : inp.homed_z = true)
    (ha : alignOk cfg inp = true) :
    cmd_AUTO_OFFSET_Z (mutatedConfig cfg) inp = cmd_AUTO_OFFSET_Z cfg inp := by
  by_cases hig : cfg.ignore_endstopoffset = true
  · rw [mutatedConfig_of_true cfg hig]
    have ha' : alignOk { cfg with internalendstopoffset := 0 } inp = true := ha
    rw [cmd_eq_afterAlign _ inp hx hy hz ha', cmd_eq_afterAlign _ inp hx hy hz ha,
      show alignEvents { cfg with internalendstopoffset := 0 } = alignEvents cfg from rfl]
    exact afterAlign_mutated cfg inp (alignEvents cfg) hig
  · rw [mutatedConfig_of_false cfg (by revert hig; cases cfg.ignore_endstopoffset <;> simp)]

/-- Claim C9 (amended): an invocation leaves every configuration field
unchanged except that, when `ignore_endstopoffset` is set and probing is
reached, line 161 overwrites `internalendstopoffset` with 0; since this
overwrite happens before the stored value is used and is idempotent, a
repeated invocation started from the post-run state behaves identically
(same events, same outcome, same computed offset, same final state). -/
theorem C9_config_mutation (cfg : Config) (inp : CmdInputs) :
    (cfg.ignore_endstopoffset = false → (cmd_AUTO_OFFSET_Z cfg inp).finalConfig = cfg) ∧
    cmd_AUTO_OFFSET_Z (cmd_AUTO_OFFSET_Z cfg inp).finalConfig inp =
      cmd_AUTO_OFFSET_Z cfg inp := by
  constructor
  · intro hig
    rcases cmd_finalConfig_cases cfg inp with h | h
    · exact h
    · rw [h, mutatedConfig_of_false cfg hig]
  · by_cases hh : (inp.homed_x && inp.homed_y && inp.homed_z) = true
    · obtain ⟨⟨hx, hy⟩, hz⟩ : (inp.homed_x = true ∧ inp.homed_y = true) ∧ inp.homed_z = true := by
        simpa [Bool.and_eq_true] using hh
      by_cases ha : alignOk cfg inp = true
      · have hfc : (cmd_AUTO_OFFSET_Z cfg inp).finalConfig = mutatedConfig cfg := by
          rw [cmd_eq_afterAlign cfg inp hx hy hz ha, afterAlign_finalConfig]
        rw [hfc]
        exact cmd_mutated_eq cfg inp hx hy hz ha
      · have ha' : alignOk cfg inp = false := by
          revert ha; cases alignOk cfg inp <;> simp
        rw [cmd_of_align_fail cfg inp hx hy hz ha']
        exact cmd_of_align_fail cfg inp hx hy hz ha'
    · have hh' : (inp.homed_x && inp.homed_y && inp.homed_z) = false := by
        revert hh; cases (inp.homed_x && inp.homed_y && inp.homed_z) <;> simp
      rw [cmd_of_not_homed cfg inp hh']
      exact cmd_of_not_homed cfg inp hh'

theorem C9_config_mutation_witness :
    (cmd_AUTO_OFFSET_Z cfgW inpW).finalConfig = cfgW ∧
    cmd_AUTO_OFFSET_Z (cmd_AUTO_OFFSET_Z cfgIgnoreEO inpW).finalConfig inpW =
      cmd_AUTO_OFFSET_Z cfgIgnoreEO inpW :=
  ⟨(C9_config_mutation cfgW inpW).1 rfl, (C9_config_mutation cfgIgnoreEO inpW).2⟩

/-- Claim C9 (counterexample): with `ignore_endstopoffset` set, one
invocation overwrites the configured `internalendstopoffset` (1/2 in
`cfgIgnoreEO`) with 0 on `self`: the configuration record is not
immutable under `AUTO_OFFSET_Z`. -/
theorem C9_counterexample :
    cfgIgnoreEO.internalendstopoffset = 1/2 ∧
    (cmd_AUTO_OFFSET_Z cfgIgnoreEO inpW).finalConfig.internalendstopoffset = 0 := by
  constructor
  · rfl
  · rw [cmd_eq_afterAlign cfgIgnoreEO inpW rfl rfl rfl rfl, afterAlign_finalConfig,
      mutatedConfig_of_true cfgIgnoreEO rfl]

theorem computedOffsetQ_max_z (cfg : Config) (inp : CmdInputs) (q : ℚ) :
    computedOffsetQ { cfg with max_z := q } inp = computedOffsetQ cfg inp := by
  by_cases h : cfg.ignore_endstopoffset = true <;>
    simp [computedOffsetQ, mutatedConfig, adjustUsed, h]

/-- The observable parts of the post-alignment tail (events, outcome,
computed offset) do not depend on `max_z`. -/
theorem afterAlign_obs_max_z (cfg : Config) (inp : CmdInputs) (q : ℚ) (ev0 : List Event) :
    (afterAlign { cfg with max_z := q } inp ev0).events =
      (afterAlign cfg inp ev0).events ∧
    (afterAlign { cfg with max_z := q } inp ev0).outcome =
      (afterAlign cfg inp ev0).outcome ∧
    (afterAlign { cfg with max_z := q } inp ev0).computedOffset =
      (afterAlign cfg inp ev0).computedOffset := by
  have hpc : preCommitEvents { cfg with max_z := q } inp ev0 =
      preCommitEvents cfg inp ev0 := by
    unfold preCommitEvents
    rw [computedOffsetQ_max_z]
    exact rfl
  unfold afterAlign
  rw [computedOffsetQ_max_z, hpc]
  split_ifs <;> exact ⟨rfl, rfl, rfl⟩

/-- Claim C10: `max_z` (stepper_z `position_max`) is read at construction
but has no effect on the command: two configurations differing only in
`max_z` produce, on identical inputs, identical event traces (every
commanded move), identical outcomes (every validation result) and
identical computed offsets. -/
theorem C10_max_z_unused (cfg : Config) (inp : CmdInputs) (q : ℚ) :
    (cmd_AUTO_OFFSET_Z { cfg with max_z := q } inp).events =
      (cmd_AUTO_OFFSET_Z cfg inp).events ∧
    (cmd_AUTO_OFFSET_Z { cfg with max_z := q } inp).outcome =
      (cmd_AUTO_OFFSET_Z cfg inp).outcome ∧
    (cmd_AUTO_OFFSET_Z { cfg with max_z := q } inp).computedOffset =
      (cmd_AUTO_OFFSET_Z cfg inp).computedOffset := by
  by_cases hh : (inp.homed_x && inp.homed_y && inp.homed_z) = true
  · obtain ⟨⟨hx, hy⟩, hz⟩ : (inp.homed_x = true ∧ inp.homed_y = true) ∧ inp.homed_z = true := by
      simpa [Bool.and_eq_true] using hh
    by_cases ha : alignOk cfg inp = true
    · have ha' : alignOk { cfg with max_z := q } inp = true := ha
      rw [cmd_eq_afterAlign _ inp hx hy hz ha', cmd_eq_afterAlign _ inp hx hy hz ha,
        show alignEvents { cfg with max_z := q } = alignEvents cfg from rfl]
      exact afterAlign_obs_max_z cfg inp q (alignEvents cfg)
    · have ha0 : alignOk cfg inp = false := by
        revert ha; cases alignOk cfg inp <;> simp
      have ha' : alignOk { cfg with max_z := q } inp = false := ha0
      rw [cmd_of_align_fail _ inp hx hy hz ha', cmd_of_align_fail _ inp hx hy hz ha0]
      exact ⟨rfl, rfl, rfl⟩
  · have hh' : (inp.homed_x && inp.homed_y && inp.homed_z) = false := by
      revert hh; cases (inp.homed_x && inp.homed_y && inp.homed_z) <;> simp
    rw [cmd_of_not_homed _ inp hh', cmd_of_not_homed _ inp hh']
    exact ⟨rfl, rfl, rfl⟩

/-- Claim C3 (counterexample): a configuration declaring both a `bltouch`
and a `probe` section — and both `quad_gantry_level` and `z_tilt` — does
NOT make construction fail: the code silently prefers bltouch and
quad_gantry_level, so "exactly one sensor section" is not required. -/
theorem C3_counterexample :
    rcBoth.has_bltouch = true ∧ rcBoth.has_probe = true ∧
    rcBoth.has_quad_gantry_level = true ∧ rcBoth.has_z_tilt = true ∧
    initOk rcBoth = true := by
  refine ⟨rfl, rfl, rfl, rfl, ?_⟩
  norm_num [initOk, init, resolveAdjustType, rcBoth, Except.map]

/-- Claim C3 (amended): construction succeeds iff AT LEAST one sensor
section is present (bltouch preferred over probe) whose selected section
has x/y offsets not both zero and the endstop pin is not a virtual
endstop, and AT LEAST one alignment source resolves (quad_gantry_level
preferred, then z_tilt, then the ignore flag); the degenerate-offset and
virtual-endstop checks are applied only to the selected sensor
section. -/
theorem C3_construction_conditions (rc : RawConfig) :
    initOk rc = true ↔
      ((rc.has_bltouch = true ∧
          ¬(rc.bltouch_x_offset = 0 ∧ rc.bltouch_y_offset = 0) ∧
          rc.endstop_pin_has_virtual_endstop = false) ∨
        (rc.has_bltouch = false ∧ rc.has_probe = true ∧
          ¬(rc.probe_x_offset = 0 ∧ rc.probe_y_offset = 0) ∧
          rc.endstop_pin_has_virtual_endstop = false)) ∧
      (rc.has_quad_gantry_level = true ∨ rc.has_z_tilt = true ∨
        rc.ignore_alignment = true) := by
  unfold initOk init resolveAdjustType
  split_ifs <;> simp_all [Except.map]
